import Mathlib

/-!
Shallow embedding of the WhatsApp voice-note summarizer server
(`src/server/index.js`).  External effects (HTTP calls to the messaging
gateway, the ffmpeg transcoder, the Gemini API, and appends to the usage
log) are recorded in an explicit trace of `Call`s; the results of external
calls are supplied by an `Oracle`.  Exceptions are modelled by a `threw`
flag / `Except` values, mirroring the try/catch structure of the source.
Timestamps (`Date.now()`) are naturals; the admission comparison
`now - lastTime < RATE_LIMIT_WINDOW_MS` is carried out on `Int`, as in JS.
-/

namespace WaServer

abbrev Phone := String

/-- Usage-log record, mirroring the fields passed to `logUsage`
(`event`, `from`, `mediaId`, `success`, `error`); `from` is a Lean
keyword so the field is named `fromId`. -/
structure UsageEvent where
  event : String
  fromId : Phone
  mediaId : Option String := none
  success : Option Bool := none
  error : Option String := none
deriving DecidableEq, Repr

/-- One part of a Gemini `generateContent` request (`contents[0].parts`). -/
inductive ReqPart where
  | text (s : String)
  | inlineData (mime data : String)
  | fileData (mime uri : String)
deriving DecidableEq, Repr

/-- One externally visible action of the server. -/
inductive Call where
  | sendText (dest body : String)
  | fetchMetadata (mediaId : String)
  | downloadMedia (url : String)
  | transcode (inputMime : String)
  | geminiUploadInit (size : Nat) (mime : String)
  | geminiUploadFinalize
  | geminiGenerate (parts : List ReqPart)
  | usageLog (ev : UsageEvent)
deriving DecidableEq, Repr

/-- Shape of `response.data` for `generateContent`:
`candidates[0].content.parts[].text`, every level possibly missing. -/
structure GenPart where
  text : Option String
deriving DecidableEq, Repr

structure GenContent where
  parts : Option (List GenPart)
deriving DecidableEq, Repr

structure GenCandidate where
  content : Option GenContent
deriving DecidableEq, Repr

structure GenResponse where
  candidates : Option (List GenCandidate)
deriving DecidableEq, Repr

/-- Result of `fetchMediaMetadata` (`fields: id,mime_type,file_size,url`);
only the fields the pipeline reads are modelled. -/
structure MediaMetadata where
  url : Option String
  mime_type : Option String
deriving DecidableEq, Repr

/-- Results of the external world for one `handleAudioMessage` /
`handleTextMessage` invocation.  `none` / `false` on a request field means
the corresponding call threw. -/
structure Oracle where
  sendOk : Bool
  metadata : Option MediaMetadata
  downloadOk : Bool
  transcodeOk : Bool
  statSize : Nat
  base64 : String
  uploadUrl : Option String
  fileUri : Option String
  genResponse : Option GenResponse
  completionNow : Nat
deriving DecidableEq, Repr

/-- In-memory `Set` plus the JSON file written by `save()`
(`Array.from(this.items)`), for `OptOutStore`.  The JS `Set` keeps
insertion order and deduplicates, so `items` is a duplicate-free list. -/
structure OptOutStore where
  items : List Phone
  persisted : List Phone
deriving DecidableEq, Repr

/-- `OptOutStore.add`: `this.items.add(phone); await this.save()`. -/
def OptOutStore.add (s : OptOutStore) (phone : Phone) : OptOutStore :=
  let items := if phone ∈ s.items then s.items else s.items ++ [phone]
  { items := items, persisted := items }

/-- `OptOutStore.remove`: `this.items.delete(phone); await this.save()`. -/
def OptOutStore.remove (s : OptOutStore) (phone : Phone) : OptOutStore :=
  let items := s.items.filter (fun x => x ≠ phone)
  { items := items, persisted := items }

/-- `OptOutStore.has`: `this.items.has(phone)`. -/
def OptOutStore.has (s : OptOutStore) (phone : Phone) : Bool :=
  s.items.contains phone

/-- `MAX_INLINE_BYTES = 20 * 1024 * 1024`. -/
def MAX_INLINE_BYTES : Nat := 20 * 1024 * 1024

/-- The fixed summarization prompt. -/
def SUMMARY_PROMPT : String :=
  "Summarize the key points from this WhatsApp voice message in two concise sentences. If the clip is not speech, describe any notable sounds."

def WAIT_MSG : String :=
  "I’m still working on your previous request. Please wait a few seconds before sending another voice note."

def FALLBACK_MSG : String :=
  "I could not understand the voice note well enough to summarize it. Please try again or type HUMAN to reach support."

def APOLOGY_MSG : String :=
  "Sorry, I couldn’t summarize that audio clip. Please try again later or reply HUMAN for assistance."

def OPTOUT_MSG : String :=
  "You have opted out of summaries. Reply START if you want to resume automated processing."

def OPTIN_MSG : String :=
  "You are back in! Forward a voice message and I’ll send a quick summary."

def HUMAN_MSG : String :=
  "Thanks for your message. A human teammate will follow up shortly."

def HELP_MSG : String :=
  "Send me a WhatsApp voice note (or forward one) and I’ll reply with a short summary. Reply STOP to opt out."

/-- Body of the success reply built from a non-null summary. -/
def summaryBody (s : String) : String :=
  "Here is the summary of that voice note:\n\n" ++ s ++
  "\n\nGenerated automatically with Google Gemini. Reply STOP to opt out."

/-- JS `String.prototype.toLowerCase`, restricted to per-character
lowering (the command vocabulary is ASCII). -/
def toLowerStr (s : String) : String :=
  String.mk (s.data.map Char.toLower)

/-- Drop leading whitespace characters. -/
def dropWhileWs : List Char → List Char
  | [] => []
  | c :: cs => if c.isWhitespace then dropWhileWs cs else c :: cs

/-- JS `String.prototype.trim`: strip whitespace from both ends. -/
def trimStr (s : String) : String :=
  String.mk ((dropWhileWs ((dropWhileWs s.data).reverse)).reverse)

/-- Characters before the first `;`, i.e. JS `s.split(";")[0]`. -/
def takeUntilSemi : List Char → List Char
  | [] => []
  | c :: cs => if c = ';' then [] else c :: takeUntilSemi cs

/-- `normalizeMimeType`: `if (!mime) return null; return
mime.split(";")[0].trim().toLowerCase()`.  `""` is falsy in JS. -/
def normalizeMimeType (mime : Option String) : Option String :=
  match mime with
  | none => none
  | some m =>
    if m = "" then none
    else some (toLowerStr (trimStr (String.mk (takeUntilSemi m.data))))

/-- Extraction of the summary text from a `generateContent` response:
`candidates?.[0]?.content?.parts?.map(p => p.text).filter(Boolean)
.join("\n")?.trim() || null`.  `filter(Boolean)` drops both missing and
empty-string part texts; the final `|| null` turns `""` into `null`. -/
def extractText (r : GenResponse) : Option String :=
  let chained : Option String :=
    match r.candidates with
    | none => none
    | some cs =>
      match cs.head? with
      | none => none
      | some c =>
        match c.content with
        | none => none
        | some content =>
          match content.parts with
          | none => none
          | some parts =>
            some (trimStr (String.intercalate "\n"
              (((parts.map (fun p => p.text)).filterMap id).filter (fun t => t ≠ ""))))
  match chained with
  | none => none
  | some s => if s = "" then none else some s

/-- `convertToMp3IfNeeded`: pass through `audio/mpeg` / `audio/mp3`,
otherwise invoke ffmpeg (mono, 16 kHz, mp3).  Returns the trace of the
transcoder invocation and the mime type handed to the summarizer, or an
error when ffmpeg rejects. -/
def convertToMp3IfNeeded (mime : Option String) (o : Oracle) :
    List Call × Except Unit String :=
  if mime = some "audio/mpeg" ∨ mime = some "audio/mp3" then
    ([], Except.ok (mime.getD ""))
  else if o.transcodeOk then
    ([Call.transcode (mime.getD "null")], Except.ok "audio/mpeg")
  else
    ([Call.transcode (mime.getD "null")], Except.error ())

/-- `startResumableUpload`: initiate request, read `x-goog-upload-url`
(throw when missing), upload+finalize, read `file.uri` (throw when
missing). -/
def startResumableUpload (o : Oracle) (size : Nat) (mime : String) :
    List Call × Except Unit String :=
  match o.uploadUrl with
  | none => ([Call.geminiUploadInit size mime], Except.error ())
  | some _ =>
    match o.fileUri with
    | none => ([Call.geminiUploadInit size mime, Call.geminiUploadFinalize], Except.error ())
    | some uri => ([Call.geminiUploadInit size mime, Call.geminiUploadFinalize], Except.ok uri)

/-- `summarizeWithGemini`: choose inline base64 submission when
`stats.size ≤ MAX_INLINE_BYTES`, else the two-phase resumable upload;
then issue `generateContent` and extract the candidate text. -/
def summarizeWithGemini (o : Oracle) (mime : String) :
    List Call × Except Unit (Option String) :=
  if o.statSize > MAX_INLINE_BYTES then
    match startResumableUpload o o.statSize mime with
    | (cs, Except.error _) => (cs, Except.error ())
    | (cs, Except.ok uri) =>
      let parts := [ReqPart.text SUMMARY_PROMPT, ReqPart.fileData mime uri]
      match o.genResponse with
      | none => (cs ++ [Call.geminiGenerate parts], Except.error ())
      | some r => (cs ++ [Call.geminiGenerate parts], Except.ok (extractText r))
  else
    let parts := [ReqPart.text SUMMARY_PROMPT, ReqPart.inlineData mime o.base64]
    match o.genResponse with
    | none => ([Call.geminiGenerate parts], Except.error ())
    | some r => ([Call.geminiGenerate parts], Except.ok (extractText r))

/-- `recentRequests.get(from) || 0`. -/
def lookupRecent (m : List (Phone × Nat)) (p : Phone) : Nat :=
  match m.find? (fun q => q.1 == p) with
  | some q => q.2
  | none => 0

/-- `recentRequests.set(from, t)` (overwrite). -/
def setRecent (m : List (Phone × Nat)) (p : Phone) (t : Nat) : List (Phone × Nat) :=
  (p, t) :: m.filter (fun q => q.1 ≠ p)

/-- Trace and success flag of the `try` block of `handleAudioMessage`
after the initial `audio_received` log: metadata fetch, download,
transcode, summarize, reply, `summary_sent` log.  `false` means the block
threw (at the recorded point). -/
def pipelineRest (o : Oracle) (sender mediaId : String) : List Call × Bool :=
  match o.metadata with
  | none => ([Call.fetchMetadata mediaId], false)
  | some md =>
    match md.url with
    | none => ([Call.fetchMetadata mediaId], false)
    | some url =>
      if o.downloadOk then
        match convertToMp3IfNeeded (normalizeMimeType md.mime_type) o with
        | (tc, Except.error _) =>
          ([Call.fetchMetadata mediaId, Call.downloadMedia url] ++ tc, false)
        | (tc, Except.ok mime) =>
          match summarizeWithGemini o mime with
          | (gc, Except.error _) =>
            ([Call.fetchMetadata mediaId, Call.downloadMedia url] ++ tc ++ gc, false)
          | (gc, Except.ok summary) =>
            let body :=
              match summary with
              | some s => summaryBody s
              | none => FALLBACK_MSG
            let cs := [Call.fetchMetadata mediaId, Call.downloadMedia url] ++ tc ++ gc ++
              [Call.sendText sender body]
            if o.sendOk then
              (cs ++ [Call.usageLog
                { event := "summary_sent", fromId := sender,
                  mediaId := some mediaId, success := some summary.isSome }], true)
            else (cs, false)
      else ([Call.fetchMetadata mediaId, Call.downloadMedia url], false)

/-- Full `try` block: `audio_received` log first, then the pipeline. -/
def runPipeline (o : Oracle) (sender mediaId : String) : List Call × Bool :=
  let rest := pipelineRest o sender mediaId
  (Call.usageLog { event := "audio_received", fromId := sender, mediaId := some mediaId } :: rest.1,
   rest.2)

/-- Result of one `handleAudioMessage` invocation: the trace, the
admission ledger after the call, the expiry timer scheduled in `finally`
(`(phone, stamp, fireAt)` with `fireAt = stamp + 2 * window`; the timer
deletes the entry only if it still holds `stamp`), and whether the
invocation threw to its caller. -/
structure AudioOutcome where
  calls : List Call
  recent : List (Phone × Nat)
  pendingExpiry : Option (Phone × Nat × Nat)
  threw : Bool
deriving DecidableEq, Repr

/-- `handleAudioMessage(from, message)` at `Date.now() = now`:
opt-out check, media-id check, rate-limit check (reject with the wait
notice and a `rate_limited` log, ledger untouched), else arrival stamp,
pipeline under try/catch, and in `finally` the completion re-stamp plus
the scheduled expiry.  A failing wait-notice send throws out of the
function before the `rate_limited` log is written. -/
def handleAudioMessage (store : OptOutStore) (recent : List (Phone × Nat)) (window : Nat)
    (o : Oracle) (sender : Phone) (audioId : Option String) (now : Nat) : AudioOutcome :=
  if store.has sender then
    { calls := [], recent := recent, pendingExpiry := none, threw := false }
  else
    match audioId with
    | none => { calls := [], recent := recent, pendingExpiry := none, threw := false }
    | some mediaId =>
      if mediaId = "" then
        { calls := [], recent := recent, pendingExpiry := none, threw := false }
      else if (now : Int) - (lookupRecent recent sender : Int) < (window : Int) then
        if o.sendOk then
          { calls := [Call.sendText sender WAIT_MSG,
              Call.usageLog { event := "rate_limited", fromId := sender, mediaId := some mediaId }],
            recent := recent, pendingExpiry := none, threw := false }
        else
          { calls := [Call.sendText sender WAIT_MSG],
            recent := recent, pendingExpiry := none, threw := true }
      else
        let recent1 := setRecent recent sender now
        let run := runPipeline o sender mediaId
        let catchCalls : List Call :=
          if run.2 then [] else
            [Call.sendText sender APOLOGY_MSG,
             Call.usageLog
               { event := "summary_failed", fromId := sender, mediaId := some mediaId,
                 error := some "error" }]
        let stamp := o.completionNow
        { calls := run.1 ++ catchCalls,
          recent := setRecent recent1 sender stamp,
          pendingExpiry := some (sender, stamp, stamp + 2 * window),
          threw := false }

/-- Result of one `handleTextMessage` invocation. -/
structure TextOutcome where
  calls : List Call
  store : OptOutStore
  threw : Bool
deriving DecidableEq, Repr

/-- `handleTextMessage(from, message)`: trim, lowercase, drop empty,
then route `stop`, `start`, `human` (with and without leading slash) and
the generic help reply.  Replies that fail to send throw out of the
function (after any store mutation already performed). -/
def handleTextMessage (store : OptOutStore) (o : Oracle) (sender : Phone)
    (body? : Option String) : TextOutcome :=
  let body := trimStr (body?.getD "")
  let normalized := toLowerStr body
  if body = "" then { calls := [], store := store, threw := false }
  else if normalized = "stop" ∨ normalized = "/stop" then
    let st := store.add sender
    if o.sendOk then
      { calls := [Call.sendText sender OPTOUT_MSG,
          Call.usageLog { event := "opt_out", fromId := sender }],
        store := st, threw := false }
    else { calls := [Call.sendText sender OPTOUT_MSG], store := st, threw := true }
  else if normalized = "start" ∨ normalized = "/start" then
    let st := store.remove sender
    if o.sendOk then
      { calls := [Call.sendText sender OPTIN_MSG,
          Call.usageLog { event := "opt_in", fromId := sender }],
        store := st, threw := false }
    else { calls := [Call.sendText sender OPTIN_MSG], store := st, threw := true }
  else if normalized = "human" ∨ normalized = "/human" then
    if o.sendOk then
      { calls := [Call.sendText sender HUMAN_MSG,
          Call.usageLog { event := "human_requested", fromId := sender }],
        store := store, threw := false }
    else { calls := [Call.sendText sender HUMAN_MSG], store := store, threw := true }
  else
    if o.sendOk then
      { calls := [Call.sendText sender HELP_MSG], store := store, threw := false }
    else { calls := [Call.sendText sender HELP_MSG], store := store, threw := true }

/-- One inbound message of a webhook batch (`message.type`,
`message.from`, `message.audio?.id`, `message.text?.body`). -/
structure InMessage where
  msgType : String
  msgFrom : Option Phone
  audioId : Option String := none
  textBody : Option String := none
deriving DecidableEq, Repr

/-- `change.value.messages || []`. -/
structure Change where
  messages : List InMessage
deriving DecidableEq, Repr

/-- `entry.changes || []`. -/
structure Entry where
  changes : List Change
deriving DecidableEq, Repr

/-- State threaded through `processWebhookPayload`: accumulated trace,
the two shared mutable stores, whether an uncaught per-message error has
aborted the loops, and the count of handler invocations so far (used to
index the per-invocation oracle and clock). -/
structure BatchState where
  calls : List Call
  store : OptOutStore
  recent : List (Phone × Nat)
  aborted : Bool
  k : Nat
deriving DecidableEq, Repr

/-- Inner `for (const message of messages)` loop.  There is no
per-message try/catch in the source, so a `threw` outcome aborts the
remaining iterations (the exception propagates). -/
def processMessages (env : Nat → Oracle) (clock : Nat → Nat) (window : Nat) :
    BatchState → List InMessage → BatchState
  | st, [] => st
  | st, m :: rest =>
    if st.aborted then st
    else
      match m.msgFrom with
      | none => processMessages env clock window st rest
      | some sender =>
        if m.msgType = "audio" then
          let r := handleAudioMessage st.store st.recent window (env st.k) sender m.audioId
            (clock st.k)
          processMessages env clock window
            { calls := st.calls ++ r.calls, store := st.store, recent := r.recent,
              aborted := r.threw, k := st.k + 1 } rest
        else if m.msgType = "text" then
          let r := handleTextMessage st.store (env st.k) sender m.textBody
          processMessages env clock window
            { calls := st.calls ++ r.calls, store := r.store, recent := st.recent,
              aborted := r.threw, k := st.k + 1 } rest
        else processMessages env clock window st rest

/-- Middle `for (const change of entry.changes || [])` loop. -/
def processChanges (env : Nat → Oracle) (clock : Nat → Nat) (window : Nat) :
    BatchState → List Change → BatchState
  | st, [] => st
  | st, c :: rest =>
    processChanges env clock window (processMessages env clock window st c.messages) rest

/-- Outer `for (const entry of payload.entry)` loop. -/
def processEntries (env : Nat → Oracle) (clock : Nat → Nat) (window : Nat) :
    BatchState → List Entry → BatchState
  | st, [] => st
  | st, e :: rest =>
    processEntries env clock window (processChanges env clock window st e.changes) rest

/-- `processWebhookPayload(payload)`: `if (!payload?.entry) return`,
else the three nested loops over `entry[].changes[].value.messages[]`. -/
def processWebhookPayload (env : Nat → Oracle) (clock : Nat → Nat) (window : Nat)
    (store : OptOutStore) (recent : List (Phone × Nat)) (entry? : Option (List Entry)) :
    BatchState :=
  match entry? with
  | none => { calls := [], store := store, recent := recent, aborted := false, k := 0 }
  | some es =>
    processEntries env clock window
      { calls := [], store := store, recent := recent, aborted := false, k := 0 } es

/-- `GET /webhook`: `(mode === "subscribe" && verifyToken ===
CONFIG.verifyToken)` echoes the challenge with 200; otherwise
`res.sendStatus(403)`, whose body is the HTTP status message
"Forbidden".  `undefined` query values and an `undefined` configured
token are `none`; JS strict equality on these is `Option` equality. -/
def webhookGet (cfgToken : Option String) (mode tok challenge : Option String) :
    Nat × String :=
  if mode == some "subscribe" && tok == cfgToken then (200, challenge.getD "")
  else (403, "Forbidden")

/-- The audio handler took the rate-limited rejection branch: its first
trace entry is the wait-notice send (the admitted path always begins
with the `audio_received` usage log, and the dropped paths are empty). -/
def rejectedByRateLimit (sender : Phone) (a : AudioOutcome) : Bool :=
  a.calls.head? == some (Call.sendText sender WAIT_MSG)

/-- Boolean prefix test on character lists. -/
def isPrefixList : List Char → List Char → Bool
  | [], _ => true
  | _ :: _, [] => false
  | a :: as, b :: bs => a == b && isPrefixList as bs

/-- Boolean substring-occurrence test on character lists. -/
def occursIn (n : List Char) : List Char → Bool
  | [] => isPrefixList n []
  | b :: bs => isPrefixList n (b :: bs) || occursIn n bs

/-- Fixture: sends succeed, all other external calls fail or are absent. -/
def oSend : Oracle :=
  { sendOk := true, metadata := none, downloadOk := true, transcodeOk := true,
    statSize := 0, base64 := "", uploadUrl := none, fileUri := none,
    genResponse := none, completionNow := 0 }

/-- Fixture: gateway sends fail (axios.post rejects). -/
def oFailSend : Oracle := { oSend with sendOk := false }

/-- Fixture: a fully successful pipeline run — ogg voice note, 1000 bytes,
a usable one-part candidate, completing at t = 140000. -/
def oPipe1 : Oracle :=
  { oSend with
    metadata := some { url := some "https://m", mime_type := some "audio/ogg" },
    statSize := 1000, base64 := "QUJD",
    genResponse := some
      { candidates := some [{ content := some { parts := some [{ text := some "hello" }] } }] },
    completionNow := 140000 }

/-- Fixture: empty opt-out store. -/
def store0 : OptOutStore := { items := [], persisted := [] }

/-- Fixture: store with user `u` opted out. -/
def storeOptedU : OptOutStore := { items := ["u"], persisted := ["u"] }

/-- Fixture: a file of exactly `MAX_INLINE_BYTES`, upload endpoints
available, response with an empty candidates array. -/
def oInline : Oracle :=
  { oSend with
    statSize := MAX_INLINE_BYTES, uploadUrl := some "U", fileUri := some "F",
    genResponse := some { candidates := some [] } }

/-- Fixture: one byte over `MAX_INLINE_BYTES`. -/
def oResumable : Oracle := { oInline with statSize := MAX_INLINE_BYTES + 1 }

/-- Fixture: successful mp3 pipeline whose Gemini response has no usable
candidate text. -/
def oNoText : Oracle :=
  { oSend with
    metadata := some { url := some "https://m", mime_type := some "audio/mpeg" },
    statSize := 5, uploadUrl := some "U", fileUri := some "F",
    genResponse := some { candidates := some [] }, completionNow := 1 }

/-- Per-invocation oracles for the batch-isolation run: the first handled
message's reply send fails, later ones would succeed. -/
def envC6 : Nat → Oracle := fun k => if k = 0 then oFailSend else oSend

/-- Constant clock for batch runs. -/
def clockC6 : Nat → Nat := fun _ => 1000000

/-- Batch fixture: plain text message from alice. -/
def msgAlice : InMessage := { msgType := "text", msgFrom := some "alice", textBody := some "hello" }

/-- Batch fixture: plain text message from bob. -/
def msgBob : InMessage := { msgType := "text", msgFrom := some "bob", textBody := some "hello" }

/-! Helper lemmas. -/

/-- Overwriting the ledger entry makes it the value looked up. -/
theorem lookupRecent_set (m : List (Phone × Nat)) (p : Phone) (t : Nat) :
    lookupRecent (setRecent m p t) p = t := by
  simp [lookupRecent, setRecent]

/-- Filtering out `id` twice is the same as filtering once. -/
theorem filter_ne_idem (l : List Phone) (id : Phone) :
    (l.filter (fun x => x ≠ id)).filter (fun x => x ≠ id) = l.filter (fun x => x ≠ id) := by
  induction l with
  | nil => rfl
  | cons a as ih => by_cases h : a = id <;> simp [h, ih]

/-- An admitted (not rate-limited) audio event for a non-opted-out user
with a media id starts its trace with the `audio_received` usage log and
leaves the ledger re-stamped to the completion time. -/
theorem admitted_audio_shape (store : OptOutStore) (recent : List (Phone × Nat)) (window : Nat)
    (o : Oracle) (sender : Phone) (mediaId : String) (now : Nat)
    (hopt : store.has sender = false) (hmid : mediaId ≠ "")
    (hadm : ¬ ((now : Int) - (lookupRecent recent sender : Int) < (window : Int))) :
    (handleAudioMessage store recent window o sender (some mediaId) now).calls.head? =
      some (Call.usageLog { event := "audio_received", fromId := sender, mediaId := some mediaId }) ∧
    (handleAudioMessage store recent window o sender (some mediaId) now).recent =
      setRecent (setRecent recent sender now) sender o.completionNow := by
  simp [handleAudioMessage, hopt, hmid, hadm, runPipeline]

/-! Claim theorems. -/

/-- Claim C3 (confirmed): for every identifier in the opt-out set,
processing an inbound audio event returns without making any external
call — no metadata fetch, no download, no transcode, no summarization
call, and no outbound text — and changes nothing. -/
theorem optOut_drops (store : OptOutStore) (recent : List (Phone × Nat)) (window : Nat)
    (o : Oracle) (sender : Phone) (audioId : Option String) (now : Nat)
    (h : store.has sender = true) :
    handleAudioMessage store recent window o sender audioId now =
      { calls := [], recent := recent, pendingExpiry := none, threw := false } := by
  simp [handleAudioMessage, h]

/-- Witness for `optOut_drops` at a concrete opted-out user. -/
theorem optOut_drops_witness :
    storeOptedU.has "u" = true ∧
    handleAudioMessage storeOptedU [] 15000 oSend "u" (some "m") 5 =
      { calls := [], recent := [], pendingExpiry := none, threw := false } :=
  ⟨by decide, optOut_drops storeOptedU [] 15000 oSend "u" (some "m") 5 (by decide)⟩

/-- Claim C4 (confirmed): a file of at most 20 MB is submitted inline
(base64 in a single generateContent request, no resumable upload); a
file strictly larger goes through the two-phase resumable upload
(initiate, then upload+finalize) and is referenced by URI, never inline. -/
theorem gemini_sizeThreshold (o : Oracle) (mime u uri : String)
    (hu : o.uploadUrl = some u) (hf : o.fileUri = some uri) :
    (o.statSize ≤ MAX_INLINE_BYTES →
      (summarizeWithGemini o mime).1 =
        [Call.geminiGenerate [ReqPart.text SUMMARY_PROMPT, ReqPart.inlineData mime o.base64]]) ∧
    (MAX_INLINE_BYTES < o.statSize →
      (summarizeWithGemini o mime).1 =
        [Call.geminiUploadInit o.statSize mime, Call.geminiUploadFinalize,
         Call.geminiGenerate [ReqPart.text SUMMARY_PROMPT, ReqPart.fileData mime uri]]) := by
  constructor
  · intro hle
    have hgt : ¬ o.statSize > MAX_INLINE_BYTES := by omega
    cases hg : o.genResponse <;> simp [summarizeWithGemini, hgt, hg]
  · intro hlt
    cases hg : o.genResponse <;>
      simp [summarizeWithGemini, startResumableUpload, hu, hf, hlt, hg]

/-- Witness for `gemini_sizeThreshold` at the boundary: exactly 20 MB is
inline, 20 MB + 1 byte is resumable. -/
theorem gemini_sizeThreshold_witness :
    oInline.statSize = MAX_INLINE_BYTES ∧
    (summarizeWithGemini oInline "audio/mpeg").1 =
      [Call.geminiGenerate [ReqPart.text SUMMARY_PROMPT, ReqPart.inlineData "audio/mpeg" ""]] ∧
    oResumable.statSize = MAX_INLINE_BYTES + 1 ∧
    (summarizeWithGemini oResumable "audio/mpeg").1 =
      [Call.geminiUploadInit (MAX_INLINE_BYTES + 1) "audio/mpeg", Call.geminiUploadFinalize,
       Call.geminiGenerate [ReqPart.text SUMMARY_PROMPT, ReqPart.fileData "audio/mpeg" "F"]] :=
  ⟨rfl, (gemini_sizeThreshold oInline "audio/mpeg" "U" "F" rfl rfl).1 (by decide),
   rfl, (gemini_sizeThreshold oResumable "audio/mpeg" "U" "F" rfl rfl).2 (by decide)⟩

/-- Claim C5 (confirmed): the opt-out registry round-trips — after `add`
the identifier is reported opted out, after a subsequent `remove` it is
not — and both operations are idempotent, with the persisted file always
equal to the in-memory set. -/
theorem optOutStore_roundtrip (s : OptOutStore) (id : Phone) :
    ((s.add id).has id = true) ∧
    (((s.add id).remove id).has id = false) ∧
    ((s.add id).add id = s.add id) ∧
    ((s.remove id).remove id = s.remove id) ∧
    ((s.add id).persisted = (s.add id).items) ∧
    ((s.remove id).persisted = (s.remove id).items) := by
  refine ⟨?_, ?_, ?_, ?_, rfl, rfl⟩
  · by_cases h : id ∈ s.items <;> simp [OptOutStore.add, OptOutStore.has, h]
  · by_cases h : id ∈ s.items <;>
      simp [OptOutStore.add, OptOutStore.remove, OptOutStore.has, h, List.mem_filter]
  · by_cases h : id ∈ s.items <;> simp [OptOutStore.add, h]
  · simp [OptOutStore.remove, filter_ne_idem]

/-- Claim C10 (confirmed): with no configured verify token, a GET
/webhook request with mode `subscribe` and no supplied token passes
verification (undefined equals undefined) and echoes the challenge with
status 200 — verification fails open. -/
theorem verify_failsOpen (ch : String) :
    webhookGet none (some "subscribe") none (some ch) = (200, ch) := by
  simp [webhookGet]

/-- Claim C1, counterexample: the claim quantifies over every user
identifier, but an opted-out user whose ledger entry is within the
window is dropped silently — no wait-notice is sent and no rate_limited
event is recorded, contradicting the claimed rejection behavior. -/
theorem rateLimit_optout_counterexample :
    lookupRecent [("u", 100)] "u" = 100 ∧
    ((105 : Int) - (100 : Int) < (15000 : Int)) ∧
    (handleAudioMessage storeOptedU [("u", 100)] 15000 oSend "u" (some "m") 105).calls = [] := by
  decide

/-- Claim C1 as amended (proved): for a user that is not opted out, an
audio message carrying a media id arriving while the ledger timestamp is
within the window is rejected — exactly one wait-notice send is issued
and nothing else external, a rate_limited usage event is recorded when
that send succeeds, the ledger entry is not updated and no expiry is
scheduled. -/
theorem rateLimit_rejects (store : OptOutStore) (recent : List (Phone × Nat)) (window : Nat)
    (o : Oracle) (sender : Phone) (mediaId : String) (now lastT : Nat)
    (hopt : store.has sender = false) (hmid : mediaId ≠ "")
    (hlast : lookupRecent recent sender = lastT)
    (hwin : (now : Int) - (lastT : Int) < (window : Int)) :
    handleAudioMessage store recent window o sender (some mediaId) now =
      { calls :=
          if o.sendOk then
            [Call.sendText sender WAIT_MSG,
             Call.usageLog { event := "rate_limited", fromId := sender, mediaId := some mediaId }]
          else [Call.sendText sender WAIT_MSG],
        recent := recent, pendingExpiry := none, threw := !o.sendOk } := by
  have h1 : (now : Int) - (lookupRecent recent sender : Int) < (window : Int) := by
    rw [hlast]; exact hwin
  cases hs : o.sendOk <;> simp [handleAudioMessage, hopt, hmid, h1, hs]

/-- Witness for `rateLimit_rejects` at a concrete rate-limited request. -/
theorem rateLimit_rejects_witness :
    store0.has "u" = false ∧ lookupRecent [("u", 100)] "u" = 100 ∧
    ((105 : Int) - (100 : Int) < (15000 : Int)) ∧
    handleAudioMessage store0 [("u", 100)] 15000 oSend "u" (some "m") 105 =
      { calls :=
          if oSend.sendOk then
            [Call.sendText "u" WAIT_MSG,
             Call.usageLog { event := "rate_limited", fromId := "u", mediaId := some "m" }]
          else [Call.sendText "u" WAIT_MSG],
        recent := [("u", 100)], pendingExpiry := none, threw := !oSend.sendOk } :=
  ⟨by decide, by decide, by decide,
   rateLimit_rejects store0 [("u", 100)] 15000 oSend "u" "m" 105 100
     (by decide) (by decide) (by decide) (by decide)⟩

/-- Claim C2, counterexample: two audio events from the same user whose
arrival timestamps are 50000 ms apart (window 15000 ms); the first
pipeline completes at 140000 and re-stamps the ledger, so the second
event, arriving at 150000 (before the 170000 expiry of the entry), is
rejected as rate-limited even though the arrival gap exceeds the window. -/
theorem arrivalGap_counterexample :
    ((150000 : Nat) - 100000 > 15000) ∧
    rejectedByRateLimit "u"
      (handleAudioMessage store0 [] 15000 oPipe1 "u" (some "m1") 100000) = false ∧
    rejectedByRateLimit "u"
      (handleAudioMessage store0
        (handleAudioMessage store0 [] 15000 oPipe1 "u" (some "m1") 100000).recent
        15000 oSend "u" (some "m2") 150000) = true ∧
    (150000 < 140000 + 2 * 15000) := by
  decide

/-- Claim C2 as amended (proved): both events are admitted provided the
second arrives at least one window after the ledger timestamp in effect
at its arrival; since the controller re-stamps the ledger to the
completion time when the first pipeline finishes, a second event
processed after the first completed is admitted when it arrives at least
one window after that completion time (arrival gap alone is not enough). -/
theorem arrivalGap_admission (store : OptOutStore) (recent0 : List (Phone × Nat)) (window : Nat)
    (o1 o2 : Oracle) (u m1 m2 : String) (t1 t2 : Nat)
    (hopt : store.has u = false) (hm1 : m1 ≠ "") (hm2 : m2 ≠ "")
    (hadm1 : ¬ ((t1 : Int) - (lookupRecent recent0 u : Int) < (window : Int)))
    (hc : ¬ ((t2 : Int) - (o1.completionNow : Int) < (window : Int))) :
    rejectedByRateLimit u (handleAudioMessage store recent0 window o1 u (some m1) t1) = false ∧
    rejectedByRateLimit u
      (handleAudioMessage store
        (handleAudioMessage store recent0 window o1 u (some m1) t1).recent
        window o2 u (some m2) t2) = false := by
  have h1 := admitted_audio_shape store recent0 window o1 u m1 t1 hopt hm1 hadm1
  have h2 : lookupRecent (handleAudioMessage store recent0 window o1 u (some m1) t1).recent u =
      o1.completionNow := by
    rw [h1.2, lookupRecent_set]
  have hadm2 : ¬ ((t2 : Int) -
      (lookupRecent (handleAudioMessage store recent0 window o1 u (some m1) t1).recent u : Int) <
      (window : Int)) := by
    rw [h2]; exact hc
  have h3 := admitted_audio_shape store
    (handleAudioMessage store recent0 window o1 u (some m1) t1).recent window o2 u m2 t2
    hopt hm2 hadm2
  constructor
  · simp [rejectedByRateLimit, h1.1, beq_eq_false_iff_ne]
  · simp [rejectedByRateLimit, h3.1, beq_eq_false_iff_ne]

/-- Witness for `arrivalGap_admission`: first event at 100000 completes
at 140000, second at 160000 ≥ 140000 + 15000 — both admitted. -/
theorem arrivalGap_admission_witness :
    store0.has "u" = false ∧
    ¬ ((100000 : Int) - (lookupRecent [] "u" : Int) < (15000 : Int)) ∧
    ¬ ((160000 : Int) - (oPipe1.completionNow : Int) < (15000 : Int)) ∧
    rejectedByRateLimit "u"
      (handleAudioMessage store0 [] 15000 oPipe1 "u" (some "m1") 100000) = false ∧
    rejectedByRateLimit "u"
      (handleAudioMessage store0
        (handleAudioMessage store0 [] 15000 oPipe1 "u" (some "m1") 100000).recent
        15000 oSend "u" (some "m2") 160000) = false := by
  refine ⟨by decide, by decide, by decide, ?_⟩
  exact arrivalGap_admission store0 [] 15000 oPipe1 oSend "u" "m1" "m2" 100000 160000
    (by decide) (by decide) (by decide) (by decide) (by decide)

/-- Claim C7, counterexample: a whitespace-only text body does not match
the command vocabulary, yet the handler returns without sending the
generic help reply (or anything at all), because the trimmed body is
empty and `if (!body) return;` fires first. -/
theorem textRouting_whitespace_counterexample :
    trimStr ((some "   " : Option String).getD "") = "" ∧
    oSend.sendOk = true ∧
    handleTextMessage store0 oSend "u" (some "   ") =
      { calls := [], store := store0, threw := false } := by
  decide

/-- Claim C7 as amended (proved): routing matches the trimmed body
case-insensitively — stop or /stop opts out, start or /start opts in,
human or /human sends the escalation notice, and any other body whose
trimmed form is non-empty gets the generic help reply, while an empty or
whitespace-only body is dropped with no reply at all. -/
theorem textRouting_amended (store : OptOutStore) (o : Oracle) (sender : Phone)
    (body? : Option String) (hsend : o.sendOk = true) :
    (trimStr (body?.getD "") = "" →
      handleTextMessage store o sender body? = { calls := [], store := store, threw := false }) ∧
    ((toLowerStr (trimStr (body?.getD "")) = "stop" ∨
      toLowerStr (trimStr (body?.getD "")) = "/stop") →
      handleTextMessage store o sender body? =
        { calls := [Call.sendText sender OPTOUT_MSG,
            Call.usageLog { event := "opt_out", fromId := sender }],
          store := store.add sender, threw := false }) ∧
    ((toLowerStr (trimStr (body?.getD "")) = "start" ∨
      toLowerStr (trimStr (body?.getD "")) = "/start") →
      handleTextMessage store o sender body? =
        { calls := [Call.sendText sender OPTIN_MSG,
            Call.usageLog { event := "opt_in", fromId := sender }],
          store := store.remove sender, threw := false }) ∧
    ((toLowerStr (trimStr (body?.getD "")) = "human" ∨
      toLowerStr (trimStr (body?.getD "")) = "/human") →
      handleTextMessage store o sender body? =
        { calls := [Call.sendText sender HUMAN_MSG,
            Call.usageLog { event := "human_requested", fromId := sender }],
          store := store, threw := false }) ∧
    (trimStr (body?.getD "") ≠ "" →
      toLowerStr (trimStr (body?.getD "")) ∉
        (["stop", "/stop", "start", "/start", "human", "/human"] : List String) →
      handleTextMessage store o sender body? =
        { calls := [Call.sendText sender HELP_MSG], store := store, threw := false }) := by
  refine ⟨?_, ?_, ?_, ?_, ?_⟩
  · intro h; simp [handleTextMessage, h]
  · intro h
    by_cases hb : trimStr (body?.getD "") = ""
    · rw [hb] at h; exact absurd h (by decide)
    · rcases h with h | h <;> simp [handleTextMessage, hb, h, hsend]
  · intro h
    by_cases hb : trimStr (body?.getD "") = ""
    · rw [hb] at h; exact absurd h (by decide)
    · rcases h with h | h <;> simp [handleTextMessage, hb, h, hsend]
  · intro h
    by_cases hb : trimStr (body?.getD "") = ""
    · rw [hb] at h; exact absurd h (by decide)
    · rcases h with h | h <;> simp [handleTextMessage, hb, h, hsend]
  · intro hb hn
    simp [List.mem_cons] at hn
    obtain ⟨h1, h2, h3, h4, h5, h6⟩ := hn
    simp [handleTextMessage, hb, h1, h2, h3, h4, h5, h6, hsend]

/-- Witness for `textRouting_amended`: a mixed-case padded STOP command
from a concrete user opts that user out. -/
theorem textRouting_amended_witness :
    oSend.sendOk = true ∧
    handleTextMessage store0 oSend "u" (some "  StOp ") =
      { calls := [Call.sendText "u" OPTOUT_MSG,
          Call.usageLog { event := "opt_out", fromId := "u" }],
        store := store0.add "u", threw := false } :=
  ⟨rfl, (textRouting_amended store0 oSend "u" (some "  StOp ") rfl).2.1 (Or.inl (by decide))⟩

/-- Claim C9, counterexample: the 403 branch replies with the constant
status message "Forbidden" as its body; when the configured verify token
is itself the string "Forbidden", a failed verification returns a body
that contains (equals) the configured token, contradicting the claimed
no-leak property as stated. -/
theorem verify_leak_counterexample :
    (some "x" : Option String) ≠ some "Forbidden" ∧
    webhookGet (some "Forbidden") (some "subscribe") (some "x") (some "c") = (403, "Forbidden") ∧
    occursIn "Forbidden".data
      (webhookGet (some "Forbidden") (some "subscribe") (some "x") (some "c")).2.data = true := by
  decide

/-- Claim C9 as amended (proved): matching mode and token echo the
challenge with status 200; any request whose supplied token differs from
the configured token gets status 403 with the constant body "Forbidden",
which does not contain the configured token whenever that token is not
itself a substring of "Forbidden". -/
theorem verify_endpoint_amended (cfg mode tok ch : Option String) :
    (mode = some "subscribe" → tok = cfg →
      webhookGet cfg mode tok ch = (200, ch.getD "")) ∧
    (tok ≠ cfg → webhookGet cfg mode tok ch = (403, "Forbidden")) ∧
    (∀ t : String, cfg = some t → occursIn t.data "Forbidden".data = false →
      tok ≠ cfg → occursIn t.data (webhookGet cfg mode tok ch).2.data = false) := by
  have hne : ∀ h : tok ≠ cfg, webhookGet cfg mode tok ch = (403, "Forbidden") := by
    intro h
    have hb : (tok == cfg) = false := beq_eq_false_iff_ne.mpr h
    simp [webhookGet, hb]
  refine ⟨?_, hne, ?_⟩
  · intro h1 h2; subst h1; subst h2; simp [webhookGet]
  · intro t ht hocc hneq
    rw [hne hneq]
    exact hocc

/-- Witness for `verify_endpoint_amended` at a concrete configured token
not occurring in "Forbidden", plus the success handshake. -/
theorem verify_endpoint_amended_witness :
    (some "x" : Option String) ≠ some "secret" ∧
    occursIn "secret".data "Forbidden".data = false ∧
    occursIn "secret".data
      (webhookGet (some "secret") (some "subscribe") (some "x") (some "c")).2.data = false ∧
    webhookGet (some "secret") (some "subscribe") (some "secret") (some "c") = (200, "c") :=
  ⟨by decide, by decide,
   (verify_endpoint_amended (some "secret") (some "subscribe") (some "x") (some "c")).2.2
     "secret" rfl (by decide) (by decide),
   (verify_endpoint_amended (some "secret") (some "subscribe") (some "secret") (some "c")).1
     rfl rfl⟩

/-- Claim C6 (code bug): a batch with two text messages, where sending
the reply for the first (alice) throws at the gateway.  The source has no
per-message try/catch inside `processWebhookPayload`, so the error
propagates through the loops and the second message (bob) is never
processed — the final state shows only alice's attempted send, `aborted`,
and a single handler invocation. -/
theorem batch_abort_bug :
    processWebhookPayload envC6 clockC6 15000 store0 []
      (some [{ changes := [{ messages := [msgAlice, msgBob] }] }]) =
      { calls := [Call.sendText "alice" HELP_MSG], store := store0, recent := [],
        aborted := true, k := 1 } := by
  decide

/-- Claim C8 (confirmed): an admitted audio event whose pipeline reaches
the summarization call and receives a response with no usable candidate
text does not throw: the fallback could-not-understand message is sent,
a `summary_sent` usage event with `success := false` is recorded, and no
apology / `summary_failed` failure path is taken. -/
theorem noUsableText_fallback (store : OptOutStore) (recent : List (Phone × Nat)) (window : Nat)
    (o : Oracle) (sender mediaId url u uri : String) (mt : Option String) (r : GenResponse)
    (now : Nat)
    (hopt : store.has sender = false) (hmid : mediaId ≠ "")
    (hadm : ¬ ((now : Int) - (lookupRecent recent sender : Int) < (window : Int)))
    (hmeta : o.metadata = some { url := some url, mime_type := mt })
    (hdl : o.downloadOk = true) (htc : o.transcodeOk = true)
    (hup : o.uploadUrl = some u) (hfu : o.fileUri = some uri)
    (hgen : o.genResponse = some r) (hext : extractText r = none)
    (hsend : o.sendOk = true) :
    (handleAudioMessage store recent window o sender (some mediaId) now).threw = false ∧
    Call.sendText sender FALLBACK_MSG ∈
      (handleAudioMessage store recent window o sender (some mediaId) now).calls ∧
    Call.usageLog
        { event := "summary_sent", fromId := sender, mediaId := some mediaId,
          success := some false } ∈
      (handleAudioMessage store recent window o sender (some mediaId) now).calls ∧
    Call.sendText sender APOLOGY_MSG ∉
      (handleAudioMessage store recent window o sender (some mediaId) now).calls ∧
    (∀ e : UsageEvent,
      Call.usageLog e ∈ (handleAudioMessage store recent window o sender (some mediaId) now).calls →
      e.event ≠ "summary_failed") := by
  by_cases hmm : normalizeMimeType mt = some "audio/mpeg" ∨ normalizeMimeType mt = some "audio/mp3"
  · rcases hmm with hm | hm <;> by_cases hs : o.statSize > MAX_INLINE_BYTES <;>
      simp [handleAudioMessage, hopt, hmid, hadm, runPipeline, pipelineRest, hmeta, hdl,
        convertToMp3IfNeeded, hm, summarizeWithGemini, startResumableUpload, hup, hfu,
        hgen, hext, hs, hsend, FALLBACK_MSG, APOLOGY_MSG, List.mem_cons]
  · by_cases hs : o.statSize > MAX_INLINE_BYTES <;>
      simp [handleAudioMessage, hopt, hmid, hadm, runPipeline, pipelineRest, hmeta, hdl,
        convertToMp3IfNeeded, hmm, htc, summarizeWithGemini, startResumableUpload, hup, hfu,
        hgen, hext, hs, hsend, FALLBACK_MSG, APOLOGY_MSG, List.mem_cons]

/-- Witness for `noUsableText_fallback` at a concrete mp3 voice note
whose Gemini response has an empty candidates array. -/
theorem noUsableText_fallback_witness :
    extractText { candidates := some [] } = none ∧
    oNoText.sendOk = true ∧
    (handleAudioMessage store0 [] 15000 oNoText "u" (some "m") 100000).threw = false ∧
    Call.sendText "u" FALLBACK_MSG ∈
      (handleAudioMessage store0 [] 15000 oNoText "u" (some "m") 100000).calls ∧
    Call.usageLog
        { event := "summary_sent", fromId := "u", mediaId := some "m",
          success := some false } ∈
      (handleAudioMessage store0 [] 15000 oNoText "u" (some "m") 100000).calls ∧
    Call.sendText "u" APOLOGY_MSG ∉
      (handleAudioMessage store0 [] 15000 oNoText "u" (some "m") 100000).calls ∧
    (∀ e : UsageEvent,
      Call.usageLog e ∈ (handleAudioMessage store0 [] 15000 oNoText "u" (some "m") 100000).calls →
      e.event ≠ "summary_failed") := by
  refine ⟨by decide, rfl, ?_⟩
  exact noUsableText_fallback store0 [] 15000 oNoText "u" "m" "https://m" "U" "F"
    (some "audio/mpeg") { candidates := some [] } 100000
    (by decide) (by decide) (by decide) rfl rfl rfl rfl rfl rfl (by decide) rfl

end WaServer
